import Mathlib

/-!
Shallow embedding of `tools/analyze_pipeline.py`, the pipeline-trace
analyzer for a 2-way superscalar RV32I core.

Conventions of the embedding:
* Python integers are `Int`; Python `x >> n` (floor shift) is `pyShr`,
  `x & (2^n - 1)` is `lowBits` (both agree with Python semantics on
  negative values, since Python `%` and `//` are floor operations).
* A CSV row produced by `csv.DictReader` is an association list
  `Row = List (String × Option String)`; a key bound to `none` models a
  cell whose value is Python `None` (short row), an absent key models a
  column missing from the header.
* Python exceptions are modelled with `Except String`: a raised
  `ValueError` / `KeyError` / `TypeError` is `Except.error` with that
  name; code that cannot raise returns plain values.
* Python `str.strip` / `str.lower` are re-implemented over the character
  list (`pystrip` / `pylower`) for the ASCII inputs the parser sees.
* `int(s, 16)`, `int(s)` and `int(s, 0)` are modelled by `pyIntHex`,
  `pyIntDec`, `pyIntBase0` (optional sign, digit run; numeric-literal
  underscores are not modelled).
-/

/-- `NOP = 0x00000013` from the source. -/
def NOP : Int := 0x00000013

/-- Python `x >> n` on an arbitrary int (arithmetic / floor shift). -/
def pyShr (x : Int) (n : Nat) : Int := Int.fdiv x (2 ^ n)

/-- Python `x & (2^n - 1)` on an arbitrary int (low-bits mask, always in
`[0, 2^n)` as in Python, since `Int.emod` follows the divisor sign). -/
def lowBits (x : Int) (n : Nat) : Int := Int.emod x (2 ^ n)

/-- Characters recognised by Python `str.strip()` with no argument
(ASCII whitespace; the traces only contain ASCII). -/
def pyIsSpace (c : Char) : Bool :=
  c = ' ' || c = '\t' || c = '\n' || c = '\x0d' || c = '\x0b' || c = '\x0c'

/-- Python `s.strip()` over the character data. -/
def pystrip (s : String) : String :=
  ⟨((s.data.dropWhile pyIsSpace).reverse.dropWhile pyIsSpace).reverse⟩

/-- Python `s.lower()` (ASCII range, which covers the trace alphabet). -/
def pylower (s : String) : String :=
  ⟨s.data.map (fun c => if 'A' ≤ c ∧ c ≤ 'Z' then Char.ofNat (c.toNat + 32) else c)⟩

/-- `any(c in s for c in ("x", "z", "?"))` from the source: does the
string contain one of the simulator unknown-value tokens? -/
def hasUnknownTok (s : String) : Bool :=
  s.data.any (fun c => c = 'x' || c = 'z' || c = '?')

/-- Value of one digit character, hex alphabet. -/
def digitVal (c : Char) : Option Nat :=
  if '0' ≤ c ∧ c ≤ '9' then some (c.toNat - '0'.toNat)
  else if 'a' ≤ c ∧ c ≤ 'f' then some (c.toNat - 'a'.toNat + 10)
  else if 'A' ≤ c ∧ c ≤ 'F' then some (c.toNat - 'A'.toNat + 10)
  else none

/-- Parse a non-empty run of digits in the given base. -/
def parseDigits (base : Nat) (cs : List Char) : Option Nat :=
  if cs.isEmpty then none
  else
    cs.foldl
      (fun acc c =>
        match acc, digitVal c with
        | some a, some v => if v < base then some (a * base + v) else none
        | _, _ => none)
      (some 0)

/-- Optional sign followed by digits in the given base (the common core of
Python `int(s, base)` after stripping). -/
def pyIntCore (base : Nat) (cs : List Char) : Option Int :=
  match cs with
  | '+' :: rest => (parseDigits base rest).map (fun n => (n : Int))
  | '-' :: rest => (parseDigits base rest).map (fun n => -(n : Int))
  | _ => (parseDigits base cs).map (fun n => (n : Int))

/-- Python `int(s, 16)`.  (The `0x` prefix form is unreachable from
`safe_hex`, whose unknown-token guard already catches the letter `x`.) -/
def pyIntHex (s : String) : Option Int := pyIntCore 16 (pystrip s).data

/-- Python `int(s)` (base 10). -/
def pyIntDec (s : String) : Option Int := pyIntCore 10 (pystrip s).data

/-- Python `int(s, 0)`: auto-detected base.  `0b`/`0o` prefixes are kept;
the `0x` prefix is unreachable past the unknown-token guard; a leading
zero on a non-zero decimal literal is invalid, as in Python. -/
def pyIntBase0 (s : String) : Option Int :=
  let core : List Char → Option Nat := fun cs =>
    match cs with
    | '0' :: 'b' :: rest => parseDigits 2 rest
    | '0' :: 'B' :: rest => parseDigits 2 rest
    | '0' :: 'o' :: rest => parseDigits 8 rest
    | '0' :: 'O' :: rest => parseDigits 8 rest
    | _ =>
      if cs.isEmpty then none
      else if cs.head? = some '0' ∧ cs.any (fun c => c ≠ '0') then none
      else parseDigits 10 cs
  match (pystrip s).data with
  | '+' :: rest => (core rest).map (fun n => (n : Int))
  | '-' :: rest => (core rest).map (fun n => -(n : Int))
  | cs => (core cs).map (fun n => (n : Int))

/-- `safe_hex` from `parse_trace`: tolerate `None`, empty, and
unknown-token strings by returning the default; otherwise run
`int(s, 16)`, whose failure raises `ValueError` (no guard in the source). -/
def safe_hex (s : Option String) (default : Int) : Except String Int :=
  match s with
  | none => .ok default
  | some s0 =>
    let s1 := pystrip s0
    if s1 = "" then .ok default
    else if hasUnknownTok (pylower s1) then .ok default
    else
      match pyIntHex s1 with
      | some v => .ok v
      | none => .error "ValueError"

/-- `safe_int_field` from `parse_trace`: like `safe_hex` but with
`int(s, 0)` wrapped in `try/except ValueError`, so it never raises. -/
def safe_int_field (s : Option String) (default : Int) : Int :=
  match s with
  | none => default
  | some s0 =>
    let s1 := pystrip s0
    if s1 = "" then default
    else if hasUnknownTok (pylower s1) then default
    else
      match pyIntBase0 s1 with
      | some v => v
      | none => default

/-- `parse_bool` from `parse_trace`: only `1`/`true`/`yes`/`y`
(case-insensitive, stripped) mean `True`. -/
def parse_bool (s : Option String) : Bool :=
  match s with
  | none => false
  | some s0 =>
    let t := pylower (pystrip s0)
    t = "1" || t = "true" || t = "yes" || t = "y"

/-- A CSV row from `csv.DictReader`: association list of column name to
cell; `none` cells model Python `None` (row shorter than the header). -/
def Row : Type := List (String × Option String)

/-- `row.get(key, default)`. -/
def rowGetD (r : Row) (k : String) (d : Option String) : Option String :=
  match r.find? (fun p => p.1 == k) with
  | some p => p.2
  | none => d

/-- `row[key]`: raises `KeyError` when the column is absent. -/
def rowIndex (r : Row) (k : String) : Except String (Option String) :=
  match r.find? (fun p => p.1 == k) with
  | some p => .ok p.2
  | none => .error "KeyError"

/-- Python `int(x)` applied to an `Optional[str]` cell: `None` raises
`TypeError`, a malformed string raises `ValueError`. -/
def pyIntCell (s : Option String) : Except String Int :=
  match s with
  | none => .error "TypeError"
  | some s0 =>
    match pyIntDec s0 with
    | some v => .ok v
    | none => .error "ValueError"

/-- `TraceEntry` dataclass from the source. -/
structure TraceEntry where
  cycle : Int
  pc_f : Int
  fetch0 : Int
  fetch1 : Int
  decode0 : Int
  decode1 : Int
  issue0 : Bool
  issue1 : Bool
  exec0 : Int
  exec1 : Int
  result0 : Int
  result1 : Int
  branch_taken0 : Bool
  branch_taken1 : Bool
  jump_taken0 : Bool
  jump_taken1 : Bool
  branch_target0 : Int
  branch_target1 : Int
  jump_target0 : Int
  jump_target1 : Int
  mem0_re : Bool
  mem0_we : Bool
  mem1_re : Bool
  mem1_we : Bool
  mem_addr0 : Int
  mem_addr1 : Int
  fwd_rs1_0_en : Bool
  fwd_rs2_0_en : Bool
  fwd_rs1_1_src : Int
  fwd_rs2_1_src : Int
  stall_if : Bool
  raw1 : Bool
  waw1 : Bool
  load_use0 : Bool
  load_use1 : Bool
  busy_vec : Int
  load_pending_vec : Int
deriving DecidableEq

instance : Inhabited TraceEntry :=
  ⟨{ cycle := 0, pc_f := 0, fetch0 := 0, fetch1 := 0, decode0 := 0, decode1 := 0,
     issue0 := false, issue1 := false, exec0 := 0, exec1 := 0, result0 := 0,
     result1 := 0, branch_taken0 := false, branch_taken1 := false,
     jump_taken0 := false, jump_taken1 := false, branch_target0 := 0,
     branch_target1 := 0, jump_target0 := 0, jump_target1 := 0,
     mem0_re := false, mem0_we := false, mem1_re := false, mem1_we := false,
     mem_addr0 := 0, mem_addr1 := 0, fwd_rs1_0_en := false, fwd_rs2_0_en := false,
     fwd_rs1_1_src := 0, fwd_rs2_1_src := 0, stall_if := false, raw1 := false,
     waw1 := false, load_use0 := false, load_use1 := false, busy_vec := 0,
     load_pending_vec := 0 }⟩

/-- Construction of one `TraceEntry` inside the `parse_trace` loop.
Field expressions are evaluated in the source's argument order, so the
first raising field determines the propagated exception. -/
def parseEntry (row : Row) : Except String TraceEntry := do
  let cycleV ← pyIntCell (← rowIndex row "cycle")
  let pcV ← safe_hex (← rowIndex row "pc_f") 0
  let fetch0V ← safe_hex (rowGetD row "fetch0" (some "0")) 0
  let fetch1V ← safe_hex (rowGetD row "fetch1" (some "0")) 0
  let decode0V ← safe_hex (rowGetD row "decode0" (some "0")) 0
  let decode1V ← safe_hex (rowGetD row "decode1" (some "0")) 0
  let issue0V := parse_bool (rowGetD row "issue0" (some "0"))
  let issue1V := parse_bool (rowGetD row "issue1" (some "0"))
  let exec0V ← safe_hex (rowGetD row "exec0" (some "0")) 0
  let exec1V ← safe_hex (rowGetD row "exec1" (some "0")) 0
  let result0V ← safe_hex (rowGetD row "result0" (some "0")) 0
  let result1V ← safe_hex (rowGetD row "result1" (some "0")) 0
  let bt0 := parse_bool (rowGetD row "branch_taken0" (some "0"))
  let bt1 := parse_bool (rowGetD row "branch_taken1" (some "0"))
  let jt0 := parse_bool (rowGetD row "jump_taken0" (some "0"))
  let jt1 := parse_bool (rowGetD row "jump_taken1" (some "0"))
  let btg0 ← safe_hex (rowGetD row "branch_target0" (some "0")) 0
  let btg1 ← safe_hex (rowGetD row "branch_target1" (some "0")) 0
  let jtg0 ← safe_hex (rowGetD row "jump_target0" (some "0")) 0
  let jtg1 ← safe_hex (rowGetD row "jump_target1" (some "0")) 0
  let m0re := parse_bool (rowGetD row "mem0_re" (some "0"))
  let m0we := parse_bool (rowGetD row "mem0_we" (some "0"))
  let m1re := parse_bool (rowGetD row "mem1_re" (some "0"))
  let m1we := parse_bool (rowGetD row "mem1_we" (some "0"))
  let ma0 ← safe_hex (rowGetD row "mem_addr0" (some "0")) 0
  let ma1 ← safe_hex (rowGetD row "mem_addr1" (some "0")) 0
  let f10 := parse_bool (rowGetD row "fwd_rs1_0_en" (some "0"))
  let f20 := parse_bool (rowGetD row "fwd_rs2_0_en" (some "0"))
  let f11 := safe_int_field (rowGetD row "fwd_rs1_1_src" (some "0")) 0
  let f21 := safe_int_field (rowGetD row "fwd_rs2_1_src" (some "0")) 0
  let stl := parse_bool (rowGetD row "stall_if_id" (some "0"))
  let r1 := parse_bool (rowGetD row "raw1" (some "0"))
  let w1 := parse_bool (rowGetD row "waw1" (some "0"))
  let lu0 := parse_bool (rowGetD row "load_use0" (some "0"))
  let lu1 := parse_bool (rowGetD row "load_use1" (some "0"))
  let bv ← safe_hex (rowGetD row "busy_vec" (some "0")) 0
  let lpv ← safe_hex (rowGetD row "load_pending_vec" (some "0")) 0
  pure
    { cycle := cycleV, pc_f := pcV, fetch0 := fetch0V, fetch1 := fetch1V,
      decode0 := decode0V, decode1 := decode1V, issue0 := issue0V,
      issue1 := issue1V, exec0 := exec0V, exec1 := exec1V, result0 := result0V,
      result1 := result1V, branch_taken0 := bt0, branch_taken1 := bt1,
      jump_taken0 := jt0, jump_taken1 := jt1, branch_target0 := btg0,
      branch_target1 := btg1, jump_target0 := jtg0, jump_target1 := jtg1,
      mem0_re := m0re, mem0_we := m0we, mem1_re := m1re, mem1_we := m1we,
      mem_addr0 := ma0, mem_addr1 := ma1, fwd_rs1_0_en := f10,
      fwd_rs2_0_en := f20, fwd_rs1_1_src := f11, fwd_rs2_1_src := f21,
      stall_if := stl, raw1 := r1, waw1 := w1, load_use0 := lu0,
      load_use1 := lu1, busy_vec := bv, load_pending_vec := lpv }

/-- Is the fetch-PC cell of a row a break condition for `parse_trace`
(cell value `None`, or containing an unknown token after lowering)? -/
def pcBad (row : Row) : Bool :=
  match rowGetD row "pc_f" (some "") with
  | none => true
  | some pc => hasUnknownTok (pylower pc)

/-- The row loop of `parse_trace`: stop (returning the rows collected so
far) when the PC cell has gone unknown or absent; otherwise build the
entry, letting any exception propagate (which loses all entries, as the
Python list is local to the raising call). -/
def parse_trace : List Row → Except String (List TraceEntry)
  | [] => .ok []
  | row :: rest =>
    if pcBad row then .ok []
    else do
      let e ← parseEntry row
      let tail ← parse_trace rest
      pure (e :: tail)

/-- `sign_extend(value, bits)` from the source:
`(value & (sign_bit - 1)) - (value & sign_bit)` with
`sign_bit = 1 << (bits - 1)`. -/
def sign_extend (value : Int) (bits : Nat) : Int :=
  lowBits value (bits - 1) - 2 ^ (bits - 1) * lowBits (pyShr value (bits - 1)) 1

/-- The dictionary returned by `decode_fields`; every code path populates
exactly these eight keys. -/
structure DecodedFields where
  opcode : Int
  rd : Int
  rs1 : Int
  rs2 : Int
  funct3 : Int
  funct7 : Int
  imm : Option Int
  mnemonic : String
deriving DecidableEq

/-- `alu_map.get((funct7, funct3), "r-op")` from the R-type branch. -/
def alu_map (funct7 funct3 : Int) : String :=
  if funct7 = 0 ∧ funct3 = 0 then "add"
  else if funct7 = 0x20 ∧ funct3 = 0 then "sub"
  else if funct7 = 0 ∧ funct3 = 1 then "sll"
  else if funct7 = 0 ∧ funct3 = 2 then "slt"
  else if funct7 = 0 ∧ funct3 = 3 then "sltu"
  else if funct7 = 0 ∧ funct3 = 4 then "xor"
  else if funct7 = 0 ∧ funct3 = 5 then "srl"
  else if funct7 = 0x20 ∧ funct3 = 5 then "sra"
  else if funct7 = 0 ∧ funct3 = 6 then "or"
  else if funct7 = 0 ∧ funct3 = 7 then "and"
  else "r-op"

/-- `mapping.get(funct3, "i-op")` from the I-type ALU branch (only
consulted when `funct3` is not 1 or 5). -/
def itype_map (funct3 : Int) : String :=
  if funct3 = 0 then "addi"
  else if funct3 = 2 then "slti"
  else if funct3 = 3 then "sltiu"
  else if funct3 = 4 then "xori"
  else if funct3 = 6 then "ori"
  else if funct3 = 7 then "andi"
  else "i-op"

/-- `{0: "lb", 1: "lh", 2: "lw", 4: "lbu", 5: "lhu"}.get(funct3, "load")`. -/
def load_map (funct3 : Int) : String :=
  if funct3 = 0 then "lb"
  else if funct3 = 1 then "lh"
  else if funct3 = 2 then "lw"
  else if funct3 = 4 then "lbu"
  else if funct3 = 5 then "lhu"
  else "load"

/-- `{0: "sb", 1: "sh", 2: "sw"}.get(funct3, "store")`. -/
def store_map (funct3 : Int) : String :=
  if funct3 = 0 then "sb"
  else if funct3 = 1 then "sh"
  else if funct3 = 2 then "sw"
  else "store"

/-- `{0: "beq", 1: "bne", 4: "blt", 5: "bge", 6: "bltu", 7: "bgeu"}.get(funct3, "branch")`. -/
def branch_map (funct3 : Int) : String :=
  if funct3 = 0 then "beq"
  else if funct3 = 1 then "bne"
  else if funct3 = 4 then "blt"
  else if funct3 = 5 then "bge"
  else if funct3 = 6 then "bltu"
  else if funct3 = 7 then "bgeu"
  else "branch"

/-- `decode_fields(instr)` from the source.  Bit concatenations with `|`
over disjoint bit ranges are written as sums of shifted pieces, which
coincides with Python's two's-complement `|` there. -/
def decode_fields (instr : Int) : DecodedFields :=
  let opcode := lowBits instr 7
  let rd := lowBits (pyShr instr 7) 5
  let funct3 := lowBits (pyShr instr 12) 3
  let rs1 := lowBits (pyShr instr 15) 5
  let rs2 := lowBits (pyShr instr 20) 5
  let funct7 := lowBits (pyShr instr 25) 7
  let base : DecodedFields :=
    { opcode := opcode, rd := rd, rs1 := rs1, rs2 := rs2, funct3 := funct3,
      funct7 := funct7, imm := none, mnemonic := "unknown" }
  if instr = 0 ∨ instr = NOP then { base with mnemonic := "nop" }
  else if opcode = 0x33 then { base with mnemonic := alu_map funct7 funct3 }
  else if opcode = 0x13 then
    if funct3 = 1 then
      { base with mnemonic := "slli", imm := some (pyShr instr 20) }
    else if funct3 = 5 then
      { base with
        mnemonic := if lowBits (pyShr funct7 5) 1 = 1 then "srai" else "srli",
        imm := some (pyShr instr 20) }
    else
      { base with
        mnemonic := itype_map funct3,
        imm := some (sign_extend (pyShr instr 20) 12) }
  else if opcode = 0x3 then
    { base with
      imm := some (sign_extend (pyShr instr 20) 12),
      mnemonic := load_map funct3 }
  else if opcode = 0x23 then
    { base with
      imm := some (sign_extend (pyShr instr 25 * 32 + lowBits (pyShr instr 7) 5) 12),
      mnemonic := store_map funct3 }
  else if opcode = 0x63 then
    { base with
      imm := some (sign_extend
        (pyShr instr 31 * 4096 + lowBits (pyShr instr 7) 1 * 2048 +
          lowBits (pyShr instr 25) 6 * 32 + lowBits (pyShr instr 8) 4 * 2) 13),
      mnemonic := branch_map funct3 }
  else if opcode = 0x6F then
    { base with
      imm := some (sign_extend
        (pyShr instr 31 * 1048576 + lowBits (pyShr instr 12) 8 * 4096 +
          lowBits (pyShr instr 20) 1 * 2048 + lowBits (pyShr instr 21) 10 * 2) 21),
      mnemonic := "jal" }
  else if opcode = 0x67 then
    { base with imm := some (sign_extend (pyShr instr 20) 12), mnemonic := "jalr" }
  else if opcode = 0x37 then
    { base with imm := some (pyShr instr 12 * 4096), mnemonic := "lui" }
  else if opcode = 0x17 then
    { base with imm := some (pyShr instr 12 * 4096), mnemonic := "auipc" }
  else if opcode = 0x73 then { base with mnemonic := "system" }
  else base

/-- The body of one iteration of the `compute_hazards` loop: does the
pair (previous cycle, current cycle) count as a potential RAW hazard?
Mirrors the `continue` guards of the source. -/
def hazardPair (prev cur : TraceEntry) : Bool :=
  let dec := decode_fields cur.decode0
  let pv := decode_fields prev.exec0
  if pv.mnemonic = "nop" then false
  else if pv.rd = 0 then false
  else if dec.mnemonic = "nop" then false
  else dec.rs1 = pv.rd || dec.rs2 = pv.rd

/-- `compute_hazards(entries)`: the `for i in range(1, len(entries))`
loop, counting over consecutive pairs. -/
def compute_hazards : List TraceEntry → Nat
  | [] => 0
  | [_] => 0
  | a :: b :: rest =>
    (if hazardPair a b then 1 else 0) + compute_hazards (b :: rest)

/-- `RS1_USERS` from the source. -/
def RS1_USERS : List String :=
  ["add", "sub", "sll", "slt", "sltu", "xor", "srl", "sra", "or", "and",
   "addi", "slti", "sltiu", "xori", "ori", "andi", "slli", "srli", "srai",
   "lb", "lh", "lw", "lbu", "lhu", "sb", "sh", "sw",
   "beq", "bne", "blt", "bge", "bltu", "bgeu", "jalr"]

/-- `RS2_USERS` from the source. -/
def RS2_USERS : List String :=
  ["add", "sub", "sll", "slt", "sltu", "xor", "srl", "sra", "or", "and",
   "sb", "sh", "sw", "beq", "bne", "blt", "bge", "bltu", "bgeu"]

/-- `WRITES_RD` from the source. -/
def WRITES_RD : List String :=
  ["add", "sub", "sll", "slt", "sltu", "xor", "srl", "sra", "or", "and",
   "addi", "slti", "sltiu", "xori", "ori", "andi", "slli", "srli", "srai",
   "lb", "lh", "lw", "lbu", "lhu", "jal", "jalr", "lui", "auipc"]

/-- `uses_rs1(mnemonic)`. -/
def uses_rs1 (mnemonic : String) : Bool := RS1_USERS.contains mnemonic

/-- `uses_rs2(mnemonic)`. -/
def uses_rs2 (mnemonic : String) : Bool := RS2_USERS.contains mnemonic

/-- `writes_rd(mnemonic)`. -/
def writes_rd (mnemonic : String) : Bool := WRITES_RD.contains mnemonic

/-- One annotation appended to `note_parts` in `print_timeline`.  The
source builds formatted strings; here each tag is a constructor carrying
the same data, so that which tags are emitted is preserved exactly while
the string formatting (out of scope) is elided. -/
inductive Note where
  | br0 (target : Int)
  | br1 (target : Int)
  | j0 (target : Int)
  | j1 (target : Int)
  | mem0 (re we : Bool) (addr : Int)
  | mem1 (re we : Bool) (addr : Int)
  | f0rs1
  | f0rs2
  | f1rs1 (src : Int)
  | f1rs2 (src : Int)
  | ex1id1ok
  | raw1sb
  | waw1sb
  | lduse0
  | lduse1
  | stall
  | consumerWarn
  | fwdMissing
  | busy (v : Int)
  | ldpend (v : Int)
  | halt0
  | halt1
deriving DecidableEq

/-- `if b: note_parts.append(n)`. -/
def optNote (b : Bool) (n : Note) : List Note := if b then [n] else []

/-- Does a decoded instruction read register `r` as `rs1` or `rs2`
(the `uses0`/`uses1` computation of `print_timeline`)? -/
def laneUses (f : DecodedFields) (r : Int) : Bool :=
  (uses_rs1 f.mnemonic && f.rs1 = r) || (uses_rs2 f.mnemonic && f.rs2 = r)

/-- `consumer_not_in_slot1` for the current cycle, given the pending
lane-1 destination from the previous cycle. -/
def consumerFlag (pend : Option Int) (d0 d1 : DecodedFields) : Bool :=
  match pend with
  | none => false
  | some r => laneUses d0 r && !(laneUses d1 r)

/-- `expected_ex1_fwd_missing` for the current cycle. -/
def fwdMissingFlag (pend : Option Int) (d1 : DecodedFields)
    (src1 src2 : Int) : Bool :=
  match pend with
  | none => false
  | some r =>
    let rs1u := uses_rs1 d1.mnemonic && d1.rs1 = r
    let rs2u := uses_rs2 d1.mnemonic && d1.rs2 = r
    if rs1u || rs2u then (rs1u && !(src1 = 1)) || (rs2u && !(src2 = 1))
    else false

/-- The previous-cycle EX1 producer view carried across the loop
(`prev_exec1_writes` / `prev_rd1` updated at the end of each iteration):
the destination register when lane-1's execute instruction writes a
nonzero `rd`, else nothing. -/
def pendAfter (e : TraceEntry) : Option Int :=
  let f := decode_fields e.exec1
  if writes_rd f.mnemonic && !(f.rd = 0) then some f.rd else none

/-- `note_parts` for one cycle of `print_timeline`, in source order. -/
def cycleNotes (pend : Option Int) (e : TraceEntry) : List Note :=
  let d0 := decode_fields e.decode0
  let d1 := decode_fields e.decode1
  let e0f := decode_fields e.exec0
  let e1f := decode_fields e.exec1
  optNote e.branch_taken0 (.br0 e.branch_target0) ++
  optNote e.branch_taken1 (.br1 e.branch_target1) ++
  optNote e.jump_taken0 (.j0 e.jump_target0) ++
  optNote e.jump_taken1 (.j1 e.jump_target1) ++
  optNote (e.mem0_re || e.mem0_we) (.mem0 e.mem0_re e.mem0_we e.mem_addr0) ++
  optNote (e.mem1_re || e.mem1_we) (.mem1 e.mem1_re e.mem1_we e.mem_addr1) ++
  optNote e.fwd_rs1_0_en .f0rs1 ++
  optNote e.fwd_rs2_0_en .f0rs2 ++
  [.f1rs1 e.fwd_rs1_1_src, .f1rs2 e.fwd_rs2_1_src] ++
  optNote (e.fwd_rs1_1_src = 1 || e.fwd_rs2_1_src = 1) .ex1id1ok ++
  optNote (e.raw1 && (uses_rs1 d1.mnemonic || uses_rs2 d1.mnemonic)) .raw1sb ++
  optNote e.waw1 .waw1sb ++
  optNote e.load_use0 .lduse0 ++
  optNote e.load_use1 .lduse1 ++
  optNote e.stall_if .stall ++
  optNote (consumerFlag pend d0 d1) .consumerWarn ++
  optNote (fwdMissingFlag pend d1 e.fwd_rs1_1_src e.fwd_rs2_1_src) .fwdMissing ++
  optNote (!(e.busy_vec = 0)) (.busy e.busy_vec) ++
  optNote (!(e.load_pending_vec = 0)) (.ldpend e.load_pending_vec) ++
  optNote (e0f.mnemonic = "system") .halt0 ++
  optNote (e1f.mnemonic = "system") .halt1

/-- The cycle loop of `print_timeline`, threading the previous-cycle
EX1 producer state (initially no producer). -/
def notesGo (pend : Option Int) : List TraceEntry → List (List Note)
  | [] => []
  | e :: rest => cycleNotes pend e :: notesGo (pendAfter e) rest

/-- Per-cycle annotation lists of the whole timeline. -/
def timelineNotes (es : List TraceEntry) : List (List Note) := notesGo none es

/-- The annotation list of cycle `i` of the timeline. -/
def notesAt (es : List TraceEntry) (i : Nat) : List Note :=
  (timelineNotes es).getD i []

/-- CPI value as reported by `main`: either `float("inf")` or the exact
quotient (modelled as a rational; the claims do not depend on float
rounding). -/
inductive CpiVal where
  | inf
  | val (q : ℚ)
deriving DecidableEq

/-- The scalar metrics computed in `main` that the claims concern. -/
structure Metrics where
  total_cycles : Nat
  retired0 : Nat
  retired1 : Nat
  retired : Nat
  cpi : CpiVal
  ipc : ℚ
deriving DecidableEq

/-- `e.exec0 not in (0, NOP)`: does an execute-stage slot word count as
a retiring instruction? -/
def retiredSlot (w : Int) : Bool := !(w = 0 || w = NOP)

/-- The metrics portion of `main`: on an empty trace `main` emits
"No trace entries found" and returns before computing any metric, which
is modelled as `none`; otherwise the counters of lines 580-585. -/
def analyze (es : List TraceEntry) : Option Metrics :=
  if es.isEmpty then none
  else
    let total := es.length
    let r0 := es.countP (fun e => retiredSlot e.exec0)
    let r1 := es.countP (fun e => retiredSlot e.exec1)
    let r := r0 + r1
    some
      { total_cycles := total, retired0 := r0, retired1 := r1, retired := r,
        cpi := if r = 0 then .inf else .val ((total : ℚ) / (r : ℚ)),
        ipc := if total = 0 then 0 else (r : ℚ) / (total : ℚ) }

/-- The all-defaults trace entry (every numeric field 0, every flag false). -/
def zeroEntry : TraceEntry := default

/-! Helper lemmas about the tolerant cell parsers. -/

/-- A cell containing an unknown token (after strip and lower) is replaced
by the default in `safe_hex`. -/
theorem safe_hex_unknown (s : String) (d : Int)
    (h : hasUnknownTok (pylower (pystrip s)) = true) :
    safe_hex (some s) d = Except.ok d := by
  unfold safe_hex
  by_cases he : pystrip s = ""
  · simp [he]
  · simp [he, h]

/-- An empty cell is replaced by the default in `safe_hex`. -/
theorem safe_hex_empty (s : String) (d : Int) (he : pystrip s = "") :
    safe_hex (some s) d = Except.ok d := by
  unfold safe_hex
  simp [he]

/-- A cell containing an unknown token is replaced by the default in
`safe_int_field`. -/
theorem safe_int_field_unknown (s : String) (d : Int)
    (h : hasUnknownTok (pylower (pystrip s)) = true) :
    safe_int_field (some s) d = d := by
  unfold safe_int_field
  by_cases he : pystrip s = ""
  · simp [he]
  · simp [he, h]

/-! Helper lemmas about the timeline annotation machinery. -/

theorem mem_optNote {m : Note} {b : Bool} {n : Note} :
    m ∈ optNote b n ↔ b = true ∧ m = n := by
  unfold optNote
  split <;> simp_all

theorem notesGo_getD (es : List TraceEntry) (pend : Option Int) (i : Nat)
    (h : i < es.length) :
    (notesGo pend es).getD i [] =
      cycleNotes (if i = 0 then pend else pendAfter (es.getD (i - 1) default))
        (es.getD i default) := by
  induction es generalizing pend i with
  | nil => simp at h
  | cons e rest ih =>
    cases i with
    | zero => simp [notesGo]
    | succ j =>
      simp only [notesGo, List.getD_cons_succ, Nat.succ_ne_zero, if_false]
      rw [ih (pendAfter e) j (by simpa using h)]
      cases j with
      | zero => simp
      | succ k => simp

theorem consumerWarn_mem_cycleNotes (pend : Option Int) (e : TraceEntry) :
    Note.consumerWarn ∈ cycleNotes pend e ↔
      consumerFlag pend (decode_fields e.decode0) (decode_fields e.decode1) = true := by
  simp [cycleNotes, mem_optNote, List.mem_append]

theorem laneUses_false {f : DecodedFields} (h1 : uses_rs1 f.mnemonic = false)
    (h2 : uses_rs2 f.mnemonic = false) (r : Int) : laneUses f r = false := by
  simp [laneUses, h1, h2]

theorem consumerFlag_true {prev : TraceEntry} {d0 d1 : DecodedFields}
    (hw : writes_rd (decode_fields prev.exec1).mnemonic = true)
    (hrd : (decode_fields prev.exec1).rd ≠ 0)
    (hu0 : laneUses d0 (decode_fields prev.exec1).rd = true)
    (hu1 : laneUses d1 (decode_fields prev.exec1).rd = false) :
    consumerFlag (pendAfter prev) d0 d1 = true := by
  unfold pendAfter consumerFlag
  simp [hw, hrd, hu0, hu1]

theorem consumerFlag_false_of_uses1 {prev : TraceEntry} {d0 d1 : DecodedFields}
    (hu1 : laneUses d1 (decode_fields prev.exec1).rd = true) :
    consumerFlag (pendAfter prev) d0 d1 = false := by
  unfold pendAfter consumerFlag
  split <;> simp_all

theorem consumerFlag_false_of_not_writes {prev : TraceEntry} {d0 d1 : DecodedFields}
    (hw : writes_rd (decode_fields prev.exec1).mnemonic = false) :
    consumerFlag (pendAfter prev) d0 d1 = false := by
  unfold pendAfter consumerFlag
  simp [hw]

theorem consumerFlag_false_of_rd0 {prev : TraceEntry} {d0 d1 : DecodedFields}
    (hrd : (decode_fields prev.exec1).rd = 0) :
    consumerFlag (pendAfter prev) d0 d1 = false := by
  unfold pendAfter consumerFlag
  simp [hrd]

theorem consumerFlag_false_of_lane0_not_reads {pend : Option Int}
    {d0 d1 : DecodedFields} (h1 : uses_rs1 d0.mnemonic = false)
    (h2 : uses_rs2 d0.mnemonic = false) :
    consumerFlag pend d0 d1 = false := by
  unfold consumerFlag
  cases pend with
  | none => rfl
  | some r => simp [laneUses_false h1 h2]

/-! Helper lemmas for the hazard-count characterization. -/

/-- The claim's description of a potential RAW hazard at index `i` of the
record sequence: `i ≥ 1`, and the decode-stage word of cycle `i` has `rs1`
or `rs2` equal to the destination register of cycle `i-1`'s execute-stage
word, that destination being nonzero and neither word decoding to `nop`. -/
def rawHazardSpecAt (es : List TraceEntry) (i : Nat) : Bool :=
  decide (1 ≤ i) && decide (i < es.length) &&
    (let d := decode_fields (es.getD i default).decode0
     let p := decode_fields (es.getD (i - 1) default).exec0
     !(p.mnemonic = "nop") && !(d.mnemonic = "nop") && !(p.rd = 0) &&
       (d.rs1 = p.rd || d.rs2 = p.rd))

theorem rawHazardSpecAt_succ_succ (a : TraceEntry) (es : List TraceEntry) (i : Nat) :
    rawHazardSpecAt (a :: es) (i + 2) = rawHazardSpecAt es (i + 1) := by
  unfold rawHazardSpecAt
  simp only [List.getD_cons_succ, List.length_cons]
  have e1 : i + 2 - 1 = (i + 1 - 1) + 1 := by omega
  rw [e1]
  simp only [List.getD_cons_succ]
  have b1 : decide (1 ≤ i + 2) = true := by simp
  have b2 : decide (1 ≤ i + 1) = true := by simp
  have b3 : decide (i + 2 < es.length + 1) = decide (i + 1 < es.length) := by
    simp [Nat.succ_lt_succ_iff]
  rw [b1, b2, b3]

theorem hazardPair_eq_rawHazardSpecAt (a b : TraceEntry) (es : List TraceEntry) :
    rawHazardSpecAt (a :: b :: es) 1 = hazardPair a b := by
  unfold rawHazardSpecAt hazardPair
  simp only [List.getD_cons_succ, List.getD_cons_zero, List.length_cons]
  have hl : decide (1 < es.length + 1 + 1) = true := by simp
  have h0 : decide (1 ≤ 1) = true := rfl
  rw [hl, h0]
  simp only [show (1 : Nat) - 1 = 0 from rfl, List.getD_cons_zero,
    Bool.true_and, Bool.and_true]
  by_cases hp : (decode_fields a.exec0).mnemonic = "nop" <;>
    by_cases hz : (decode_fields a.exec0).rd = 0 <;>
    by_cases hd : (decode_fields b.decode0).mnemonic = "nop" <;>
    simp_all

theorem rawHazard_countAux (a : TraceEntry) (es : List TraceEntry) :
    (List.range es.length).countP (fun i => rawHazardSpecAt (a :: es) (i + 1)) =
      compute_hazards (a :: es) := by
  induction es generalizing a with
  | nil => rfl
  | cons b rest ih =>
    simp only [List.length_cons, List.range_succ_eq_map, List.countP_cons,
      List.countP_map]
    have h1 : rawHazardSpecAt (a :: b :: rest) (0 + 1) = hazardPair a b := by
      simpa using hazardPair_eq_rawHazardSpecAt a b rest
    have h2 :
        (List.range rest.length).countP
            ((fun i => rawHazardSpecAt (a :: b :: rest) (i + 1)) ∘ Nat.succ) =
          (List.range rest.length).countP
            (fun i => rawHazardSpecAt (b :: rest) (i + 1)) := by
      apply List.countP_congr
      intro i hi
      simp only [Function.comp]
      rw [show i.succ + 1 = i + 2 from rfl, rawHazardSpecAt_succ_succ]
    rw [h1, h2, ih b,
      show compute_hazards (a :: b :: rest) =
        (if hazardPair a b then 1 else 0) + compute_hazards (b :: rest) from rfl]
    omega

/-! Helper lemmas for the decoder totality theorem. -/

/-- The closed set of mnemonics the decoder can produce: `nop`, the known
R/I/load/store/branch/jump/upper/system mnemonics, and the placeholders
`unknown`, `r-op`, `i-op`, `load`, `store`, `branch`. -/
def allMnemonics : List String :=
  ["nop", "add", "sub", "sll", "slt", "sltu", "xor", "srl", "sra", "or", "and",
   "r-op", "addi", "slti", "sltiu", "xori", "ori", "andi", "slli", "srli",
   "srai", "i-op", "lb", "lh", "lw", "lbu", "lhu", "load", "sb", "sh", "sw",
   "store", "beq", "bne", "blt", "bge", "bltu", "bgeu", "branch", "jal",
   "jalr", "lui", "auipc", "system", "unknown"]

set_option maxHeartbeats 2000000 in
theorem alu_map_mem (f7 f3 : Int) : alu_map f7 f3 ∈ allMnemonics := by
  unfold alu_map
  split_ifs <;> decide

theorem itype_map_mem (f3 : Int) : itype_map f3 ∈ allMnemonics := by
  unfold itype_map
  split_ifs <;> decide

theorem load_map_mem (f3 : Int) : load_map f3 ∈ allMnemonics := by
  unfold load_map
  split_ifs <;> decide

theorem store_map_mem (f3 : Int) : store_map f3 ∈ allMnemonics := by
  unfold store_map
  split_ifs <;> decide

theorem branch_map_mem (f3 : Int) : branch_map f3 ∈ allMnemonics := by
  unfold branch_map
  split_ifs <;> decide

set_option maxHeartbeats 1000000 in
theorem decode_fields_mnemonic_mem (w : Int) :
    (decode_fields w).mnemonic ∈ allMnemonics := by
  unfold decode_fields
  by_cases h0 : w = 0 ∨ w = NOP
  · rw [if_pos h0]
    show ("nop" : String) ∈ allMnemonics
    decide
  rw [if_neg h0]
  by_cases h1 : lowBits w 7 = 51
  · rw [if_pos h1]
    exact alu_map_mem _ _
  rw [if_neg h1]
  by_cases h2 : lowBits w 7 = 19
  · rw [if_pos h2]
    by_cases h2a : lowBits (pyShr w 12) 3 = 1
    · rw [if_pos h2a]
      show ("slli" : String) ∈ allMnemonics
      decide
    rw [if_neg h2a]
    by_cases h2b : lowBits (pyShr w 12) 3 = 5
    · rw [if_pos h2b]
      by_cases hb : lowBits (pyShr (lowBits (pyShr w 25) 7) 5) 1 = 1
      · rw [if_pos hb]
        show ("srai" : String) ∈ allMnemonics
        decide
      · rw [if_neg hb]
        show ("srli" : String) ∈ allMnemonics
        decide
    rw [if_neg h2b]
    exact itype_map_mem _
  rw [if_neg h2]
  by_cases h3 : lowBits w 7 = 3
  · rw [if_pos h3]
    exact load_map_mem _
  rw [if_neg h3]
  by_cases h4 : lowBits w 7 = 35
  · rw [if_pos h4]
    exact store_map_mem _
  rw [if_neg h4]
  by_cases h5 : lowBits w 7 = 99
  · rw [if_pos h5]
    exact branch_map_mem _
  rw [if_neg h5]
  by_cases h6 : lowBits w 7 = 111
  · rw [if_pos h6]
    show ("jal" : String) ∈ allMnemonics
    decide
  rw [if_neg h6]
  by_cases h7 : lowBits w 7 = 103
  · rw [if_pos h7]
    show ("jalr" : String) ∈ allMnemonics
    decide
  rw [if_neg h7]
  by_cases h8 : lowBits w 7 = 55
  · rw [if_pos h8]
    show ("lui" : String) ∈ allMnemonics
    decide
  rw [if_neg h8]
  by_cases h9 : lowBits w 7 = 23
  · rw [if_pos h9]
    show ("auipc" : String) ∈ allMnemonics
    decide
  rw [if_neg h9]
  by_cases h10 : lowBits w 7 = 115
  · rw [if_pos h10]
    show ("system" : String) ∈ allMnemonics
    decide
  rw [if_neg h10]
  show ("unknown" : String) ∈ allMnemonics
  decide

/-! Claim theorems. -/

/-- C1 (counterexample): the tolerant row parser is not exception-free on
every malformed numeric cell.  A row whose `cycle` cell is the malformed
text `ab` (with a perfectly valid `pc_f`) makes `parse_trace` propagate a
`ValueError`, because `cycle` is parsed with plain `int(...)`. -/
theorem c1_counterexample :
    parse_trace [[("cycle", some "ab"), ("pc_f", some "00000000")]] =
      Except.error "ValueError" := by rfl

/-- C1 (amended): numeric cells that are `None`, empty, or contain the
unknown tokens x/z/? are converted to the default and never raise, and the
guarded forwarding-source fields never raise; but a malformed numeric cell
without an unknown token does raise: `safe_hex` has no exception guard
(e.g. on `gg`), and the `cycle` cell is parsed with plain `int`, whose
`ValueError` propagates out of `parse_trace`. -/
theorem c1_amended :
    (∀ s d, hasUnknownTok (pylower (pystrip s)) = true →
      safe_hex (some s) d = Except.ok d)
    ∧ (∀ d, safe_hex none d = Except.ok d)
    ∧ (∀ s d, pystrip s = "" → safe_hex (some s) d = Except.ok d)
    ∧ (∀ s d, hasUnknownTok (pylower (pystrip s)) = true →
        safe_int_field (some s) d = d)
    ∧ safe_hex (some "gg") 0 = Except.error "ValueError"
    ∧ pyIntCell (some "ab") = Except.error "ValueError" := by
  refine ⟨safe_hex_unknown, fun d => rfl, safe_hex_empty, safe_int_field_unknown,
    by rfl, by rfl⟩

/-- C1 (witness): the amended theorem at concrete cells: a hex cell
` zZ ` and a forwarding-source cell `?` both fall back to their defaults. -/
theorem c1_amended_witness :
    safe_hex (some " zZ ") 7 = Except.ok 7 ∧ safe_int_field (some "?") 5 = 5 :=
  ⟨c1_amended.1 " zZ " 7 (by decide), c1_amended.2.2.2.1 "?" 5 (by decide)⟩

/-- C2: for every cycle `i ≥ 1`, if cycle `i-1` lane-1's execute word
decodes to a writes-rd mnemonic with destination `rd ≠ 0`, and cycle `i`
lane-0's decode word reads that register (per the reads-rs1/reads-rs2
sets) while lane-1's decode word does not, the timeline emits the
consumer-not-in-slot-1 warning at cycle `i`; the warning is not emitted
when lane 1 is the consumer, nor when the producer decodes to
`nop`/`unknown` or writes `x0`, nor when lane 0's decode word is a
`nop`/`unknown` (which never reads). -/
theorem c2_consumer_not_in_slot1 (es : List TraceEntry) (i : Nat)
    (h1 : 1 ≤ i) (h2 : i < es.length) :
    (writes_rd (decode_fields (es.getD (i - 1) default).exec1).mnemonic = true →
     (decode_fields (es.getD (i - 1) default).exec1).rd ≠ 0 →
     laneUses (decode_fields (es.getD i default).decode0)
       (decode_fields (es.getD (i - 1) default).exec1).rd = true →
     laneUses (decode_fields (es.getD i default).decode1)
       (decode_fields (es.getD (i - 1) default).exec1).rd = false →
     Note.consumerWarn ∈ notesAt es i)
    ∧ (laneUses (decode_fields (es.getD i default).decode1)
         (decode_fields (es.getD (i - 1) default).exec1).rd = true →
       Note.consumerWarn ∉ notesAt es i)
    ∧ ((decode_fields (es.getD (i - 1) default).exec1).mnemonic = "nop" →
       Note.consumerWarn ∉ notesAt es i)
    ∧ ((decode_fields (es.getD (i - 1) default).exec1).mnemonic = "unknown" →
       Note.consumerWarn ∉ notesAt es i)
    ∧ ((decode_fields (es.getD (i - 1) default).exec1).rd = 0 →
       Note.consumerWarn ∉ notesAt es i)
    ∧ ((decode_fields (es.getD i default).decode0).mnemonic = "nop" →
       Note.consumerWarn ∉ notesAt es i)
    ∧ ((decode_fields (es.getD i default).decode0).mnemonic = "unknown" →
       Note.consumerWarn ∉ notesAt es i) := by
  have hmem :
      Note.consumerWarn ∈ notesAt es i ↔
        consumerFlag (pendAfter (es.getD (i - 1) default))
          (decode_fields (es.getD i default).decode0)
          (decode_fields (es.getD i default).decode1) = true := by
    unfold notesAt timelineNotes
    rw [notesGo_getD es none i h2, if_neg (by omega)]
    exact consumerWarn_mem_cycleNotes _ _
  rw [hmem]
  refine ⟨?_, ?_, ?_, ?_, ?_, ?_, ?_⟩
  · intro hw hrd hu0 hu1
    exact consumerFlag_true hw hrd hu0 hu1
  · intro hu1
    rw [consumerFlag_false_of_uses1 hu1]
    simp
  · intro hm
    rw [consumerFlag_false_of_not_writes (by rw [hm]; decide)]
    simp
  · intro hm
    rw [consumerFlag_false_of_not_writes (by rw [hm]; decide)]
    simp
  · intro hz
    rw [consumerFlag_false_of_rd0 hz]
    simp
  · intro hm
    rw [consumerFlag_false_of_lane0_not_reads (by rw [hm]; decide) (by rw [hm]; decide)]
    simp
  · intro hm
    rw [consumerFlag_false_of_lane0_not_reads (by rw [hm]; decide) (by rw [hm]; decide)]
    simp

/-- C2 (witness): a two-cycle trace where cycle 0 lane-1 executes
`add x7, x1, x2` (word `0x2083B3`) and cycle 1 lane-0 decodes
`add x5, x7, x0` (word `0x382B3`, reading `x7`) gets the warning; moving
the consumer to lane 1 suppresses it. -/
theorem c2_consumer_not_in_slot1_witness :
    Note.consumerWarn ∈
      notesAt [{ zeroEntry with exec1 := 0x2083B3 },
               { zeroEntry with decode0 := 0x382B3 }] 1
    ∧ Note.consumerWarn ∉
      notesAt [{ zeroEntry with exec1 := 0x2083B3 },
               { zeroEntry with decode1 := 0x382B3 }] 1 :=
  ⟨(c2_consumer_not_in_slot1
      [{ zeroEntry with exec1 := 0x2083B3 }, { zeroEntry with decode0 := 0x382B3 }]
      1 (by decide) (by decide)).1 (by decide) (by decide) (by decide) (by decide),
   (c2_consumer_not_in_slot1
      [{ zeroEntry with exec1 := 0x2083B3 }, { zeroEntry with decode1 := 0x382B3 }]
      1 (by decide) (by decide)).2.1 (by decide)⟩

/-- C3 (counterexample): `decode(0)` and `decode(0x00000013)` are not
equal as decoded records: the unconditionally-extracted `opcode` field is
0 for the former and 0x13 for the latter. -/
theorem c3_counterexample : decode_fields 0 ≠ decode_fields NOP := by decide

/-- C3 (amended): `decode(0)` and `decode(0x00000013)` both yield mnemonic
`nop` with no immediate, and NOP detection short-circuits opcode dispatch
(the I-type table would have produced `addi` for `0x13`); the two records
agree on every field except `opcode`, but are not equal as records. -/
theorem c3_amended :
    (decode_fields 0).mnemonic = "nop"
    ∧ (decode_fields NOP).mnemonic = "nop"
    ∧ (decode_fields 0).imm = none
    ∧ (decode_fields NOP).imm = none
    ∧ itype_map (lowBits (pyShr NOP 12) 3) = "addi"
    ∧ decode_fields NOP = { decode_fields 0 with opcode := 0x13 } := by decide

/-- C4: if all rows before index `k` have a usable `pc_f` and parse
cleanly, and row `k`'s `pc_f` cell is `None` or contains an x/z/? token,
then `parse_trace` returns exactly the entries of the first `k` rows —
row `k` and everything after it is discarded; and a non-PC numeric field
with an unknown token parses to the default instead of failing. -/
theorem c4_pc_truncation (rows : List Row) (k : Nat) (hk : k < rows.length)
    (hbad : pcBad (rows.getD k []) = true)
    (hgood : ∀ j, j < k →
      pcBad (rows.getD j []) = false ∧ (parseEntry (rows.getD j [])).isOk = true) :
    (∃ es, parse_trace rows = Except.ok es ∧ es.length = k ∧
      ∀ j, j < k → Except.ok (es.getD j default) = parseEntry (rows.getD j []))
    ∧ (∀ s d, hasUnknownTok (pylower (pystrip s)) = true →
        safe_hex (some s) d = Except.ok d) := by
  refine ⟨?_, safe_hex_unknown⟩
  induction rows generalizing k with
  | nil => simp at hk
  | cons r rest ih =>
    cases k with
    | zero =>
      refine ⟨[], ?_, rfl, by omega⟩
      simp only [List.getD_cons_zero] at hbad
      simp [parse_trace, hbad]
    | succ j =>
      have h0 := hgood 0 (Nat.succ_pos j)
      simp only [List.getD_cons_zero] at h0
      obtain ⟨hpc, hok⟩ := h0
      cases he : parseEntry r with
      | error msg => rw [he] at hok; simp [Except.isOk, Except.toBool] at hok
      | ok e =>
        have hjk : j < rest.length := by simpa using hk
        have hbad2 : pcBad (rest.getD j []) = true := by
          simpa using hbad
        have hgood2 : ∀ m, m < j →
            pcBad (rest.getD m []) = false ∧
              (parseEntry (rest.getD m [])).isOk = true := by
          intro m hm
          have := hgood (m + 1) (by omega)
          simpa using this
        obtain ⟨es2, hp2, hlen2, hidx2⟩ := ih j hjk hbad2 hgood2
        refine ⟨e :: es2, ?_, by simp [hlen2], ?_⟩
        · simp [parse_trace, hpc, he, hp2]
          rfl
        · intro m hm
          cases m with
          | zero => simp [he]
          | succ m2 =>
            have := hidx2 m2 (by omega)
            simpa using this

/-- C4 (witness): a trace of two rows, the first valid but with a `zz`
fetch0 cell, the second with `pc_f = "xxxxxxxx"`: parsing keeps exactly
the first row (whose entry is the parse of that row), and a `zz` cell
falls back to the default. -/
theorem c4_pc_truncation_witness :
    (∃ es,
      parse_trace
        [[("cycle", some "0"), ("pc_f", some "00000000"), ("fetch0", some "zz")],
         [("cycle", some "1"), ("pc_f", some "xxxxxxxx")]] = Except.ok es ∧
      es.length = 1 ∧
      Except.ok (es.getD 0 default) =
        parseEntry
          [("cycle", some "0"), ("pc_f", some "00000000"), ("fetch0", some "zz")])
    ∧ safe_hex (some "zz") 7 = Except.ok 7 := by
  have h := c4_pc_truncation
    [[("cycle", some "0"), ("pc_f", some "00000000"), ("fetch0", some "zz")],
     [("cycle", some "1"), ("pc_f", some "xxxxxxxx")]] 1
    (by decide) (by decide)
    (by
      intro j hj
      have hj0 : j = 0 := by omega
      subst hj0
      exact ⟨by decide, by decide⟩)
  obtain ⟨⟨es, hp, hlen, hidx⟩, hs⟩ := h
  exact ⟨⟨es, hp, hlen, by simpa using hidx 0 (by omega)⟩, hs "zz" 7 (by decide)⟩

/-- C5 (counterexample): the lane-1 RAW scoreboard flag is not rendered
as-is.  An entry with `raw1 = true` whose lane-1 decode word is 0 (a
`nop`, which reads no source register) gets no RAW1 annotation: the
renderer additionally requires lane-1's decode mnemonic to be in the
reads-rs1 or reads-rs2 set. -/
theorem c5_counterexample :
    ({ zeroEntry with raw1 := true } : TraceEntry).raw1 = true
    ∧ (decode_fields ({ zeroEntry with raw1 := true } : TraceEntry).decode1).mnemonic = "nop"
    ∧ Note.raw1sb ∉ notesAt [{ zeroEntry with raw1 := true }] 0 := by decide

/-- C5 (amended): the WAW flag, both load-use flags and the fetch-stall
flag are rendered exactly as reported by the trace; the lane-1 RAW flag is
rendered iff it is reported and lane-1's decode mnemonic additionally
reads rs1 or rs2. -/
theorem c5_amended (es : List TraceEntry) (i : Nat) (h : i < es.length) :
    (Note.waw1sb ∈ notesAt es i ↔ (es.getD i default).waw1 = true)
    ∧ (Note.lduse0 ∈ notesAt es i ↔ (es.getD i default).load_use0 = true)
    ∧ (Note.lduse1 ∈ notesAt es i ↔ (es.getD i default).load_use1 = true)
    ∧ (Note.stall ∈ notesAt es i ↔ (es.getD i default).stall_if = true)
    ∧ (Note.raw1sb ∈ notesAt es i ↔
        ((es.getD i default).raw1 = true ∧
          (uses_rs1 (decode_fields (es.getD i default).decode1).mnemonic = true ∨
           uses_rs2 (decode_fields (es.getD i default).decode1).mnemonic = true))) := by
  unfold notesAt timelineNotes
  rw [notesGo_getD es none i h]
  refine ⟨?_, ?_, ?_, ?_, ?_⟩ <;> simp [cycleNotes, mem_optNote, List.mem_append]

/-- C5 (witness): the amended theorem at concrete single-row traces: a
reported WAW flag is rendered, and a reported RAW flag is rendered when
lane-1 decodes `add x5, x7, x0` (word `0x382B3`, which reads rs1). -/
theorem c5_amended_witness :
    Note.waw1sb ∈ notesAt [{ zeroEntry with waw1 := true }] 0
    ∧ Note.raw1sb ∈ notesAt [{ zeroEntry with raw1 := true, decode1 := 0x382B3 }] 0 :=
  ⟨(c5_amended [{ zeroEntry with waw1 := true }] 0 (by decide)).1.mpr (by decide),
   (c5_amended [{ zeroEntry with raw1 := true, decode1 := 0x382B3 }] 0
      (by decide)).2.2.2.2.mpr (by decide)⟩

/-- C6: the potential-RAW count of `compute_hazards` equals the number of
indices `i ≥ 1` at which the decode-stage word of cycle `i` has `rs1` or
`rs2` equal to the nonzero destination register of the immediately
preceding cycle's execute-stage word, with neither word a `nop` — an
exact one-cycle-lookback characterization, comparing against no older
instruction. -/
theorem c6_potential_raw_count (es : List TraceEntry) :
    compute_hazards es = (List.range es.length).countP (rawHazardSpecAt es) := by
  cases es with
  | nil => rfl
  | cons a rest =>
    simp only [List.length_cons, List.range_succ_eq_map, List.countP_cons,
      List.countP_map]
    have h0 : rawHazardSpecAt (a :: rest) 0 = false := by
      unfold rawHazardSpecAt
      simp
    rw [h0]
    have h2 :
        (List.range rest.length).countP (rawHazardSpecAt (a :: rest) ∘ Nat.succ) =
          (List.range rest.length).countP
            (fun i => rawHazardSpecAt (a :: rest) (i + 1)) := by
      apply List.countP_congr
      intro i hi
      rfl
    rw [h2, rawHazard_countAux a rest]
    simp

/-- C7: the word `0x00628463` decodes to `beq` with `rs1 = 5`, `rs2 = 6`,
and signed 13-bit branch immediate 8, equal to
sign-extend(concat(bit31, bit7, bits 25-30, bits 8-11, low 0 bit), 13). -/
theorem c7_beq_decode :
    (decode_fields 0x00628463).mnemonic = "beq"
    ∧ (decode_fields 0x00628463).rs1 = 5
    ∧ (decode_fields 0x00628463).rs2 = 6
    ∧ (decode_fields 0x00628463).imm = some 8
    ∧ (8 : Int) =
        sign_extend
          (pyShr 0x00628463 31 * 4096 + lowBits (pyShr 0x00628463 7) 1 * 2048 +
            lowBits (pyShr 0x00628463 25) 6 * 32 + lowBits (pyShr 0x00628463 8) 4 * 2)
          13 := by decide

/-- C8 (counterexample): on an empty trace the analysis does not yield
`retired = 0` with CPI = +inf — `main` returns after emitting "No trace
entries found", before any metric is computed, so no metrics exist. -/
theorem c8_counterexample :
    ¬ ∃ m, analyze [] = some m ∧ m.retired = 0 ∧ m.cpi = CpiVal.inf := by
  rintro ⟨m, hm, -, -⟩
  rw [show analyze ([] : List TraceEntry) = none from rfl] at hm
  cases hm

/-- C8 (amended): an execute-stage slot counts as retired iff its word is
neither 0 nor `0x00000013`; the empty trace short-circuits before metrics
(no metrics record exists); every nonempty trace yields metrics in which
the retired counts are those slot counts and `retired = 0` gives
CPI = +inf rather than a division error. -/
theorem c8_amended (es : List TraceEntry) (m : Metrics) :
    (∀ w : Int, retiredSlot w = true ↔ (w ≠ 0 ∧ w ≠ NOP))
    ∧ (analyze es = some m →
        m.retired0 = es.countP (fun e => retiredSlot e.exec0) ∧
        m.retired1 = es.countP (fun e => retiredSlot e.exec1) ∧
        m.retired = m.retired0 + m.retired1 ∧
        (m.retired = 0 → m.cpi = CpiVal.inf))
    ∧ analyze ([] : List TraceEntry) = none
    ∧ (es ≠ [] → (analyze es).isSome = true) := by
  refine ⟨?_, ?_, rfl, ?_⟩
  · intro w
    unfold retiredSlot
    simp [not_or]
  · intro h
    unfold analyze at h
    split at h
    · cases h
    · rw [Option.some_inj] at h
      subst h
      refine ⟨rfl, rfl, rfl, ?_⟩
      intro hr
      simp only at hr
      simp [hr]
  · intro hne
    unfold analyze
    rw [if_neg (by simpa [List.isEmpty_iff] using hne)]
    rfl

/-- C8 (witness): the amended theorem instantiated on the one-entry
all-NOP trace: metrics exist, its retired count is 0, and its CPI is the
infinity marker, with no division error. -/
theorem c8_amended_witness :
    ∃ m, analyze [zeroEntry] = some m ∧ m.retired = 0 ∧ m.cpi = CpiVal.inf := by
  have hs : (analyze [zeroEntry]).isSome = true :=
    (c8_amended [zeroEntry] ⟨0, 0, 0, 0, CpiVal.inf, 0⟩).2.2.2 (by simp)
  cases heq : analyze [zeroEntry] with
  | none => rw [heq] at hs; simp at hs
  | some m =>
    have h := ((c8_amended [zeroEntry] m).2.1) heq
    have hr : m.retired = 0 := by
      rw [h.2.2.1, h.1, h.2.1]
      decide
    exact ⟨m, rfl, hr, h.2.2.2 hr⟩

/-- C9: decoding is total and deterministic — `decode_fields` is a Lean
function, and for every integer input word its mnemonic lies in the
closed, nonempty mnemonic set (at worst a placeholder such as `unknown`,
`r-op`, `i-op`, `load`, `store`, or `branch`), hence is never null. -/
theorem c9_decode_total (w : Int) :
    (decode_fields w).mnemonic ∈ allMnemonics ∧ (decode_fields w).mnemonic ≠ "" := by
  have hmem := decode_fields_mnemonic_mem w
  refine ⟨hmem, ?_⟩
  intro he
  rw [he] at hmem
  exact absurd hmem (by decide)

/-- C10: the potential-RAW heuristic compares raw rs1/rs2 bit-fields
without consulting the reads-rs1/reads-rs2 capability sets: with cycle 0
executing `addi x7, x0, 0` (word `0x393`) and cycle 1 decoding the `lui`
word `0x380B7` — whose raw rs1 field happens to be 7 although `lui` reads
no source register — the count is incremented. -/
theorem c10_raw_heuristic_ignores_capability :
    compute_hazards
        [{ zeroEntry with exec0 := 0x393 }, { zeroEntry with decode0 := 0x380B7 }] = 1
    ∧ (decode_fields 0x380B7).mnemonic = "lui"
    ∧ uses_rs1 "lui" = false
    ∧ uses_rs2 "lui" = false
    ∧ (decode_fields 0x380B7).rs1 = 7
    ∧ (decode_fields (0x393 : Int)).rd = 7
    ∧ (decode_fields (0x393 : Int)).mnemonic = "addi" := by decide
